import Mathlib

/-!
Shallow embedding of the Play Mode Controller of the NovelMind editor
(`src/editor/src/play_mode_controller.cpp`, data model from the class header).

Modelling conventions:
* `f64` time quantities are modelled as `ℚ`; none of the verified properties
  depend on floating-point rounding.
* The external `TimelinePlaybackEngine` singleton is opaque; its observable
  knobs (current time, speed, playing flag) are folded into the controller
  state so that `captureSceneSnapshot`/`restoreSceneSnapshot` can be mirrored.
* Synchronous listener callbacks and event-bus publications are modelled as a
  trace of `Evt` values returned alongside the new controller state.  A
  callback event carries a snapshot of the controller at the moment of the
  call, which is exactly what a synchronous listener can observe by querying
  the controller from inside the callback.
* `std::unordered_map` is modelled as an association list with replace-on-set
  semantics; iteration order is irrelevant to every property proved below.
-/

/-- Play mode states (`enum class PlayModeState`). -/
inductive PlayModeState : Type where
  | Stopped
  | Starting
  | Playing
  | Paused
  | Stopping
deriving DecidableEq

/-- Play mode configuration (`struct PlayModeConfig`), default member values
as in the header. -/
structure PlayModeConfig : Type where
  startFromCurrentScene : Bool := true
  maximizeSceneView : Bool := false
  muteAudio : Bool := false
  showDebugOverlay : Bool := true
  pauseOnError : Bool := true
  enableBreakpoints : Bool := true
  timeScale : ℚ := 1
  startSceneId : String := ""
  enabledDebugViews : List String := []
deriving DecidableEq

/-- Debug breakpoint (`struct Breakpoint`). -/
structure Breakpoint : Type where
  id : String := ""
  nodeId : String := ""
  condition : String := ""
  enabled : Bool := true
  hitOnce : Bool := false
  hitCount : Nat := 0
deriving DecidableEq

/-- Snapshot of scene state for restoration (`struct SceneSnapshot`). -/
structure SceneSnapshot : Type where
  sceneId : String := ""
  serializedData : List Nat := []
  timelinePosition : ℚ := 0
  selectedObjects : List String := []
  variableStates : List (String × String) := []
deriving DecidableEq

/-- Play mode statistics (`struct PlayModeStats`). -/
structure PlayModeStats : Type where
  totalPlayTime : ℚ := 0
  frameCount : Nat := 0
  averageFps : ℚ := 0
  minFrameTime : ℚ := 0
  maxFrameTime : ℚ := 0
  scriptErrorCount : Nat := 0
  warningCount : Nat := 0
  visitedNodes : List String := []
  nodeVisitCounts : List (String × Nat) := []
deriving DecidableEq

/-- State of the `PlayModeController` singleton: its member variables, plus
the observable knobs of the external `TimelinePlaybackEngine` collaborator
(`engineTime`, `engineSpeed`, `enginePlaying`).  Listeners are identified by
opaque numeric tokens (the C++ code stores non-owning pointers). -/
structure PlayModeController : Type where
  state : PlayModeState := PlayModeState.Stopped
  config : PlayModeConfig := {}
  defaultConfig : PlayModeConfig := {}
  stats : PlayModeStats := {}
  sceneSnapshot : Option SceneSnapshot := none
  breakpoints : List Breakpoint := []
  nextBreakpointId : Nat := 1
  atBreakpoint : Bool := false
  currentBreakpointId : String := ""
  vars : List (String × String) := []
  currentNodeId : String := ""
  currentSceneId : String := ""
  lastFrameTime : ℚ := 0
  frameTimeAccumulator : ℚ := 0
  frameTimeCount : Nat := 0
  listeners : List Nat := []
  hasApp : Bool := false
  engineTime : ℚ := 0
  engineSpeed : ℚ := 1
  enginePlaying : Bool := false
deriving DecidableEq

/-- Lifecycle callback kinds of `IPlayModeListener`. -/
inductive LifeKind : Type where
  | starting
  | started
  | paused
  | resumed
  | stopping
  | stopped
deriving DecidableEq

/-- Observable notification actions of the controller: direct listener
callbacks (each carrying the controller state observable during the
synchronous call) and event-bus publications. -/
inductive Evt : Type where
  | stateChanged (oldState newState : PlayModeState) (snap : PlayModeController)
  | life (kind : LifeKind) (snap : PlayModeController)
  | busStateChanged (oldState newState : PlayModeState)
  | breakpointHit (bp : Breakpoint) (snap : PlayModeController)
  | busBreakpointHit (breakpointId nodeId : String) (hitCount : Nat)
  | scriptError (msg nodeId : String) (snap : PlayModeController)
  | busError (msg nodeId : String)
deriving DecidableEq

namespace PlayModeController

/-- Controller with all members at their declared initial values (the state of
the lazily constructed singleton before `initialize`). -/
def initCtrl : PlayModeController := {}

/-- `PlayModeController::initialize(app)`: records the app pointer, sets the
default configuration fields listed there and copies it to the active config. -/
def initApp (c : PlayModeController) : PlayModeController :=
  let dcfg := { c.defaultConfig with
    startFromCurrentScene := true
    showDebugOverlay := true
    pauseOnError := true
    enableBreakpoints := true
    timeScale := 1 }
  { c with hasApp := true, defaultConfig := dcfg, config := dcfg }

/-- `PlayModeController::isInPlayMode`. -/
def isInPlayMode (c : PlayModeController) : Bool :=
  c.state == PlayModeState.Playing || c.state == PlayModeState.Paused ||
  c.state == PlayModeState.Starting || c.state == PlayModeState.Stopping

/-- `PlayModeController::getBreakpointForNode`: first breakpoint whose
`nodeId` matches (`std::find_if` over the flat list). -/
def getBreakpointForNode (c : PlayModeController) (nodeId : String) :
    Option Breakpoint :=
  c.breakpoints.find? (fun bp => bp.nodeId == nodeId)

/-- Identifier produced by `generateBreakpointId` at the current counter. -/
def freshBreakpointId (c : PlayModeController) : String :=
  "bp_" ++ toString c.nextBreakpointId

/-- `PlayModeController::addBreakpoint`: silently rejected when a breakpoint
already targets the node, otherwise appends a fresh enabled breakpoint and
bumps the id counter. -/
def addBreakpoint (c : PlayModeController) (nodeId condition : String) :
    PlayModeController :=
  if (c.getBreakpointForNode nodeId).isSome then c
  else
    { c with
      breakpoints := c.breakpoints ++
        [{ id := c.freshBreakpointId, nodeId := nodeId, condition := condition,
           enabled := true, hitOnce := false, hitCount := 0 }]
      nextBreakpointId := c.nextBreakpointId + 1 }

/-- `PlayModeController::removeBreakpoint`: erases the first breakpoint with
the given id, if any. -/
def removeBreakpoint (c : PlayModeController) (breakpointId : String) :
    PlayModeController :=
  { c with breakpoints := c.breakpoints.eraseP (fun bp => bp.id == breakpointId) }

/-- `PlayModeController::toggleBreakpoint`: remove if present, add if absent. -/
def toggleBreakpoint (c : PlayModeController) (nodeId : String) :
    PlayModeController :=
  match c.getBreakpointForNode nodeId with
  | some bp => c.removeBreakpoint bp.id
  | none => c.addBreakpoint nodeId ""

/-- In-place update of the first breakpoint with the given id, used by
`setBreakpointEnabled`. -/
def setEnabledFirst : List Breakpoint → String → Bool → List Breakpoint
  | [], _, _ => []
  | bp :: rest, bid, e =>
    if bp.id == bid then { bp with enabled := e } :: rest
    else bp :: setEnabledFirst rest bid e

/-- `PlayModeController::setBreakpointEnabled`. -/
def setBreakpointEnabled (c : PlayModeController) (breakpointId : String)
    (enabled : Bool) : PlayModeController :=
  { c with breakpoints := setEnabledFirst c.breakpoints breakpointId enabled }

/-- `PlayModeController::clearAllBreakpoints`. -/
def clearAllBreakpoints (c : PlayModeController) : PlayModeController :=
  { c with breakpoints := [] }

/-- Registry effect of a breakpoint hit in `update`: the first breakpoint
with the hit id gets its hit count incremented, then is erased when its
`hitOnce` flag is set (the C++ code increments through the iterator and then
erases it, so the increment is not observable in the `hitOnce` case). -/
def registerHit : List Breakpoint → String → List Breakpoint
  | [], _ => []
  | bp :: rest, bid =>
    if bp.id == bid then
      if bp.hitOnce then rest
      else { bp with hitCount := bp.hitCount + 1 } :: rest
    else bp :: registerHit rest bid

/-- Replace-on-set insertion into the runtime variable table
(`m_variables[name] = value`). -/
def varSet : List (String × String) → String → String → List (String × String)
  | [], k, v => [(k, v)]
  | (k', v') :: rest, k, v =>
    if k' == k then (k, v) :: rest else (k', v') :: varSet rest k v

/-- `PlayModeController::setVariable` (unguarded, like the C++ code). -/
def setVariable (c : PlayModeController) (name value : String) :
    PlayModeController :=
  { c with vars := varSet c.vars name value }

/-- `PlayModeController::getVariable`: empty string when absent. -/
def getVariable (c : PlayModeController) (name : String) : String :=
  match c.vars.find? (fun p => p.1 == name) with
  | some p => p.2
  | none => ""

/-- `PlayModeController::getAllVariables`. -/
def getAllVariables (c : PlayModeController) : List (String × String) :=
  c.vars

/-- `PlayModeController::jumpToScene`: guarded by `isInPlayMode`. -/
def jumpToScene (c : PlayModeController) (sceneId : String) :
    PlayModeController :=
  if c.isInPlayMode then { c with currentSceneId := sceneId } else c

/-- `PlayModeController::jumpToNode`: guarded by `isInPlayMode`. -/
def jumpToNode (c : PlayModeController) (nodeId : String) :
    PlayModeController :=
  if c.isInPlayMode then { c with currentNodeId := nodeId } else c

/-- `PlayModeController::setTimeScale`: clamps to `[0, 10]` and pushes the
speed to the playback engine while in play mode. -/
def setTimeScale (c : PlayModeController) (scale : ℚ) : PlayModeController :=
  let clamped := max 0 (min scale 10)
  let c1 := { c with config := { c.config with timeScale := clamped } }
  if c1.isInPlayMode then { c1 with engineSpeed := clamped } else c1

/-- `PlayModeController::setDefaultConfig`. -/
def setDefaultConfig (c : PlayModeController) (cfg : PlayModeConfig) :
    PlayModeController :=
  { c with defaultConfig := cfg }

/-- `PlayModeController::addListener`: appends when not already registered. -/
def addListener (c : PlayModeController) (l : Nat) : PlayModeController :=
  if c.listeners.contains l then c else { c with listeners := c.listeners ++ [l] }

/-- `PlayModeController::removeListener`. -/
def removeListener (c : PlayModeController) (l : Nat) : PlayModeController :=
  { c with listeners := c.listeners.erase l }

/-- `PlayModeController::resetStats`. -/
def resetStats (c : PlayModeController) : PlayModeController :=
  { c with stats := {}, lastFrameTime := 0, frameTimeAccumulator := 0,
           frameTimeCount := 0 }

/-- `PlayModeController::updateStats`, in the statement order of the C++
code: accumulate play time and frame count, record frame timing, update
min/max, and recompute `averageFps` once the accumulator reaches one second. -/
def updateStats (c : PlayModeController) (deltaTime : ℚ) : PlayModeController :=
  let stats1 := { c.stats with
    totalPlayTime := c.stats.totalPlayTime + deltaTime
    frameCount := c.stats.frameCount + 1 }
  let acc := c.frameTimeAccumulator + deltaTime
  let cnt := c.frameTimeCount + 1
  let stats2 :=
    if stats1.frameCount = 1 ∨ deltaTime < stats1.minFrameTime then
      { stats1 with minFrameTime := deltaTime }
    else stats1
  let stats3 :=
    if deltaTime > stats2.maxFrameTime then
      { stats2 with maxFrameTime := deltaTime }
    else stats2
  { c with
    stats := if acc ≥ 1 then { stats3 with averageFps := (cnt : ℚ) / acc }
             else stats3
    lastFrameTime := deltaTime
    frameTimeAccumulator := if acc ≥ 1 then 0 else acc
    frameTimeCount := if acc ≥ 1 then 0 else cnt }

/-- `PlayModeController::pause`: only from `Playing`; pauses the engine and
emits the state-change callback, the `onPlayModePaused` callback and the bus
event. -/
def pause (c : PlayModeController) : PlayModeController × List Evt :=
  if c.state ≠ PlayModeState.Playing then (c, [])
  else
    let old := c.state
    let c' := { c with state := PlayModeState.Paused, enginePlaying := false }
    (c', [Evt.stateChanged old PlayModeState.Paused c',
          Evt.life LifeKind.paused c',
          Evt.busStateChanged old PlayModeState.Paused])

/-- `PlayModeController::resume`: only from `Paused`, and rejected while
`m_atBreakpoint` is set. -/
def resume (c : PlayModeController) : PlayModeController × List Evt :=
  if c.state ≠ PlayModeState.Paused then (c, [])
  else if c.atBreakpoint then (c, [])
  else
    let c' := { c with state := PlayModeState.Playing, enginePlaying := true }
    (c', [Evt.stateChanged PlayModeState.Paused PlayModeState.Playing c',
          Evt.life LifeKind.resumed c',
          Evt.busStateChanged PlayModeState.Paused PlayModeState.Playing])

/-- `PlayModeController::continueExecution`: clears the breakpoint flag and
resumes when paused.  Note the C++ code publishes no bus event here. -/
def continueExecution (c : PlayModeController) : PlayModeController × List Evt :=
  if ¬ c.atBreakpoint then (c, [])
  else
    let c1 := { c with atBreakpoint := false, currentBreakpointId := "" }
    if c1.state = PlayModeState.Paused then
      let c2 := { c1 with state := PlayModeState.Playing, enginePlaying := true }
      (c2, [Evt.stateChanged PlayModeState.Paused PlayModeState.Playing c2,
            Evt.life LifeKind.resumed c2])
    else (c1, [])

/-- `PlayModeController::enterPlayMode`: `Starting` bookend with callbacks,
scene snapshot capture, stats reset, engine configuration, transition to
`Playing` with callbacks and a single bus event. -/
def enterPlayMode (c : PlayModeController) : PlayModeController × List Evt :=
  let old := c.state
  let c1 := { c with state := PlayModeState.Starting }
  let evs1 := [Evt.stateChanged old PlayModeState.Starting c1,
               Evt.life LifeKind.starting c1]
  let snap : SceneSnapshot :=
    { sceneId := c1.currentSceneId, serializedData := [],
      timelinePosition := c1.engineTime, selectedObjects := [],
      variableStates := [] }
  let c2 := { c1 with sceneSnapshot := some snap }
  let c3 := c2.resetStats
  let c4 := { c3 with engineSpeed := c3.config.timeScale }
  let c5 := if c4.config.startFromCurrentScene then c4
            else { c4 with engineTime := 0 }
  let c6 := { c5 with state := PlayModeState.Playing, enginePlaying := true }
  (c6, evs1 ++
    [Evt.stateChanged PlayModeState.Starting PlayModeState.Playing c6,
     Evt.life LifeKind.started c6,
     Evt.busStateChanged PlayModeState.Starting PlayModeState.Playing])

/-- `PlayModeController::play(config)`: no-op unless `Stopped`; stores the
config then enters play mode. -/
def playWith (c : PlayModeController) (cfg : PlayModeConfig) :
    PlayModeController × List Evt :=
  if c.state ≠ PlayModeState.Stopped then (c, [])
  else enterPlayMode { c with config := cfg }

/-- `PlayModeController::play()`: `play(m_defaultConfig)`. -/
def play (c : PlayModeController) : PlayModeController × List Evt :=
  c.playWith c.defaultConfig

/-- `PlayModeController::exitPlayMode`: `Stopping` bookend, engine stop,
snapshot restore, runtime-state clearing (variables, breakpoint flag, current
ids — the breakpoint registry is NOT cleared), transition to `Stopped`. -/
def exitPlayMode (c : PlayModeController) : PlayModeController × List Evt :=
  let old := c.state
  let c1 := { c with state := PlayModeState.Stopping }
  let evs1 := [Evt.stateChanged old PlayModeState.Stopping c1,
               Evt.life LifeKind.stopping c1]
  let c2 := { c1 with enginePlaying := false }
  let c3 := match c2.sceneSnapshot with
    | some snap => { c2 with engineTime := snap.timelinePosition,
                             sceneSnapshot := none }
    | none => c2
  let c4 := { c3 with vars := [], atBreakpoint := false,
                      currentBreakpointId := "", currentNodeId := "",
                      currentSceneId := "" }
  let c5 := { c4 with state := PlayModeState.Stopped }
  (c5, evs1 ++
    [Evt.stateChanged PlayModeState.Stopping PlayModeState.Stopped c5,
     Evt.life LifeKind.stopped c5,
     Evt.busStateChanged PlayModeState.Stopping PlayModeState.Stopped])

/-- `PlayModeController::stop`: no-op when already `Stopped`. -/
def stop (c : PlayModeController) : PlayModeController × List Evt :=
  if c.state = PlayModeState.Stopped then (c, []) else c.exitPlayMode

/-- `PlayModeController::togglePlayPause`. -/
def togglePlayPause (c : PlayModeController) : PlayModeController × List Evt :=
  match c.state with
  | PlayModeState.Stopped => c.play
  | PlayModeState.Playing => c.pause
  | PlayModeState.Paused =>
      if c.atBreakpoint then c.continueExecution else c.resume
  | _ => (c, [])

/-- `PlayModeController::restart`: acts as `play()` when stopped; otherwise
rewinds the engine, resets stats and variables, clears the breakpoint-hit
flag and resumes when paused. -/
def restart (c : PlayModeController) : PlayModeController × List Evt :=
  if c.state = PlayModeState.Stopped then c.play
  else
    let c1 := { c with engineTime := 0 }
    let c2 := c1.resetStats
    let c3 := { c2 with vars := [] }
    let c4 := { c3 with atBreakpoint := false, currentBreakpointId := "" }
    if c4.state = PlayModeState.Paused then c4.resume else (c4, [])

/-- `PlayModeController::update`: only while `Playing`.  Scales the delta,
updates stats, advances the (opaque) engine, then performs the breakpoint
check: on a hit it sets the flag, bumps the hit count (removing the
breakpoint when `hitOnce`), pauses, and notifies listeners and the bus with
the breakpoint copy captured before the increment. -/
def update (c : PlayModeController) (deltaTime : ℚ) :
    PlayModeController × List Evt :=
  if c.state ≠ PlayModeState.Playing then (c, [])
  else
    let scaled := deltaTime * c.config.timeScale
    let c1 := c.updateStats scaled
    let c2 := { c1 with engineTime := c1.engineTime + scaled }
    if c2.config.enableBreakpoints ∧ c2.currentNodeId ≠ "" then
      match c2.getBreakpointForNode c2.currentNodeId with
      | some bp =>
        if bp.enabled then
          let c3 := { c2 with atBreakpoint := true,
                              currentBreakpointId := bp.id,
                              breakpoints := registerHit c2.breakpoints bp.id }
          let pc := c3.pause
          (pc.1, pc.2 ++ [Evt.breakpointHit bp pc.1,
                          Evt.busBreakpointHit bp.id bp.nodeId bp.hitCount])
        else (c2, [])
      | none => (c2, [])
    else (c2, [])

/-- `PlayModeController::stepNext`: only while `Paused`; feeds one frame at
60 fps to `update`. -/
def stepNext (c : PlayModeController) : PlayModeController × List Evt :=
  if c.state ≠ PlayModeState.Paused then (c, []) else c.update (1 / 60)

/-- `PlayModeController::stepInto`: alias of `stepNext` behind the same
guard. -/
def stepInto (c : PlayModeController) : PlayModeController × List Evt :=
  if c.state ≠ PlayModeState.Paused then (c, []) else c.stepNext

/-- `PlayModeController::stepOut`: alias of `stepNext` behind the same
guard. -/
def stepOut (c : PlayModeController) : PlayModeController × List Evt :=
  if c.state ≠ PlayModeState.Paused then (c, []) else c.stepNext

/-- `PlayModeController::notifyError`: bumps the error counter, notifies
listeners and the bus, and pauses when `pauseOnError` is set while playing. -/
def notifyError (c : PlayModeController) (error nodeId : String) :
    PlayModeController × List Evt :=
  let c1 := { c with stats :=
    { c.stats with scriptErrorCount := c.stats.scriptErrorCount + 1 } }
  let evs := [Evt.scriptError error nodeId c1, Evt.busError error nodeId]
  if c1.config.pauseOnError ∧ c1.state = PlayModeState.Playing then
    let pc := c1.pause
    (pc.1, evs ++ pc.2)
  else (c1, evs)

/-- `PlayModeController::shutdown`: forces `stop()` while in play mode, then
clears listeners, breakpoints, variables and the app pointer. -/
def shutdown (c : PlayModeController) : PlayModeController × List Evt :=
  let pc := if c.isInPlayMode then c.stop else (c, [])
  ({ pc.1 with listeners := [], breakpoints := [], vars := [],
               hasApp := false }, pc.2)

end PlayModeController

/-- Public mutator commands of the controller boundary (section 6 of the
design: inbound commands plus lifecycle and listener registration). -/
inductive PMCmd : Type where
  | play
  | playWith (cfg : PlayModeConfig)
  | pause
  | resume
  | stop
  | togglePlayPause
  | restart
  | stepNext
  | stepInto
  | stepOut
  | addBreakpoint (nodeId condition : String)
  | removeBreakpoint (breakpointId : String)
  | toggleBreakpoint (nodeId : String)
  | setBreakpointEnabled (breakpointId : String) (enabled : Bool)
  | clearAllBreakpoints
  | continueExecution
  | jumpToScene (sceneId : String)
  | jumpToNode (nodeId : String)
  | setVariable (name value : String)
  | setTimeScale (scale : ℚ)
  | setDefaultConfig (cfg : PlayModeConfig)
  | update (deltaTime : ℚ)
  | notifyError (error nodeId : String)
  | initApp
  | shutdown
  | addListener (l : Nat)
  | removeListener (l : Nat)

/-- Effect of one public command on the controller, with the emitted
notification trace (empty for the silent mutators). -/
def applyCmd : PMCmd → PlayModeController → PlayModeController × List Evt
  | PMCmd.play, c => c.play
  | PMCmd.playWith cfg, c => c.playWith cfg
  | PMCmd.pause, c => c.pause
  | PMCmd.resume, c => c.resume
  | PMCmd.stop, c => c.stop
  | PMCmd.togglePlayPause, c => c.togglePlayPause
  | PMCmd.restart, c => c.restart
  | PMCmd.stepNext, c => c.stepNext
  | PMCmd.stepInto, c => c.stepInto
  | PMCmd.stepOut, c => c.stepOut
  | PMCmd.addBreakpoint n cond, c => (c.addBreakpoint n cond, [])
  | PMCmd.removeBreakpoint b, c => (c.removeBreakpoint b, [])
  | PMCmd.toggleBreakpoint n, c => (c.toggleBreakpoint n, [])
  | PMCmd.setBreakpointEnabled b e, c => (c.setBreakpointEnabled b e, [])
  | PMCmd.clearAllBreakpoints, c => (c.clearAllBreakpoints, [])
  | PMCmd.continueExecution, c => c.continueExecution
  | PMCmd.jumpToScene s, c => (c.jumpToScene s, [])
  | PMCmd.jumpToNode n, c => (c.jumpToNode n, [])
  | PMCmd.setVariable k v, c => (c.setVariable k v, [])
  | PMCmd.setTimeScale s, c => (c.setTimeScale s, [])
  | PMCmd.setDefaultConfig cfg, c => (c.setDefaultConfig cfg, [])
  | PMCmd.update dt, c => c.update dt
  | PMCmd.notifyError e n, c => c.notifyError e n
  | PMCmd.initApp, c => (c.initApp, [])
  | PMCmd.shutdown, c => c.shutdown
  | PMCmd.addListener l, c => (c.addListener l, [])
  | PMCmd.removeListener l, c => (c.removeListener l, [])

namespace PlayModeController

section ProjectionLemmas

variable (c : PlayModeController)

@[simp] theorem addBreakpoint_state (n cond : String) :
    (c.addBreakpoint n cond).state = c.state := by
  unfold addBreakpoint; split <;> rfl

@[simp] theorem addBreakpoint_atBreakpoint (n cond : String) :
    (c.addBreakpoint n cond).atBreakpoint = c.atBreakpoint := by
  unfold addBreakpoint; split <;> rfl

@[simp] theorem removeBreakpoint_state (b : String) :
    (c.removeBreakpoint b).state = c.state := rfl

@[simp] theorem removeBreakpoint_atBreakpoint (b : String) :
    (c.removeBreakpoint b).atBreakpoint = c.atBreakpoint := rfl

@[simp] theorem toggleBreakpoint_state (n : String) :
    (c.toggleBreakpoint n).state = c.state := by
  unfold toggleBreakpoint; split <;> simp

@[simp] theorem toggleBreakpoint_atBreakpoint (n : String) :
    (c.toggleBreakpoint n).atBreakpoint = c.atBreakpoint := by
  unfold toggleBreakpoint; split <;> simp

@[simp] theorem setBreakpointEnabled_state (b : String) (e : Bool) :
    (c.setBreakpointEnabled b e).state = c.state := rfl

@[simp] theorem setBreakpointEnabled_atBreakpoint (b : String) (e : Bool) :
    (c.setBreakpointEnabled b e).atBreakpoint = c.atBreakpoint := rfl

@[simp] theorem clearAllBreakpoints_state :
    c.clearAllBreakpoints.state = c.state := rfl

@[simp] theorem clearAllBreakpoints_atBreakpoint :
    c.clearAllBreakpoints.atBreakpoint = c.atBreakpoint := rfl

@[simp] theorem jumpToScene_state (s : String) :
    (c.jumpToScene s).state = c.state := by
  unfold jumpToScene; split <;> rfl

@[simp] theorem jumpToScene_atBreakpoint (s : String) :
    (c.jumpToScene s).atBreakpoint = c.atBreakpoint := by
  unfold jumpToScene; split <;> rfl

@[simp] theorem jumpToNode_state (n : String) :
    (c.jumpToNode n).state = c.state := by
  unfold jumpToNode; split <;> rfl

@[simp] theorem jumpToNode_atBreakpoint (n : String) :
    (c.jumpToNode n).atBreakpoint = c.atBreakpoint := by
  unfold jumpToNode; split <;> rfl

@[simp] theorem setVariable_state (k v : String) :
    (c.setVariable k v).state = c.state := rfl

@[simp] theorem setVariable_atBreakpoint (k v : String) :
    (c.setVariable k v).atBreakpoint = c.atBreakpoint := rfl

@[simp] theorem setTimeScale_state (s : ℚ) :
    (c.setTimeScale s).state = c.state := by
  unfold setTimeScale; dsimp only <;> (first | rfl | (split <;> rfl))

@[simp] theorem setTimeScale_atBreakpoint (s : ℚ) :
    (c.setTimeScale s).atBreakpoint = c.atBreakpoint := by
  unfold setTimeScale; dsimp only <;> (first | rfl | (split <;> rfl))

@[simp] theorem setDefaultConfig_state (cfg : PlayModeConfig) :
    (c.setDefaultConfig cfg).state = c.state := rfl

@[simp] theorem setDefaultConfig_atBreakpoint (cfg : PlayModeConfig) :
    (c.setDefaultConfig cfg).atBreakpoint = c.atBreakpoint := rfl

@[simp] theorem addListener_state (l : Nat) :
    (c.addListener l).state = c.state := by
  unfold addListener; split <;> rfl

@[simp] theorem addListener_atBreakpoint (l : Nat) :
    (c.addListener l).atBreakpoint = c.atBreakpoint := by
  unfold addListener; split <;> rfl

@[simp] theorem removeListener_state (l : Nat) :
    (c.removeListener l).state = c.state := rfl

@[simp] theorem removeListener_atBreakpoint (l : Nat) :
    (c.removeListener l).atBreakpoint = c.atBreakpoint := rfl

@[simp] theorem initApp_state : c.initApp.state = c.state := rfl

@[simp] theorem initApp_atBreakpoint :
    c.initApp.atBreakpoint = c.atBreakpoint := rfl

@[simp] theorem resetStats_state : c.resetStats.state = c.state := rfl

@[simp] theorem resetStats_atBreakpoint :
    c.resetStats.atBreakpoint = c.atBreakpoint := rfl

@[simp] theorem resetStats_breakpoints :
    c.resetStats.breakpoints = c.breakpoints := rfl

@[simp] theorem updateStats_state (dt : ℚ) :
    (c.updateStats dt).state = c.state := rfl

@[simp] theorem updateStats_atBreakpoint (dt : ℚ) :
    (c.updateStats dt).atBreakpoint = c.atBreakpoint := rfl

@[simp] theorem updateStats_breakpoints (dt : ℚ) :
    (c.updateStats dt).breakpoints = c.breakpoints := rfl

@[simp] theorem updateStats_config (dt : ℚ) :
    (c.updateStats dt).config = c.config := rfl

@[simp] theorem updateStats_currentNodeId (dt : ℚ) :
    (c.updateStats dt).currentNodeId = c.currentNodeId := rfl

@[simp] theorem updateStats_vars (dt : ℚ) :
    (c.updateStats dt).vars = c.vars := rfl

end ProjectionLemmas

section NoopLemmas

variable (c : PlayModeController)

/-- Guarded no-op shape of `play(config)` outside `Stopped`. -/
theorem playWith_noop (cfg : PlayModeConfig)
    (h : c.state ≠ PlayModeState.Stopped) : c.playWith cfg = (c, []) := by
  unfold playWith; simp [h]

/-- Guarded no-op shape of `play()` outside `Stopped`. -/
theorem play_noop (h : c.state ≠ PlayModeState.Stopped) : c.play = (c, []) := by
  unfold play; exact c.playWith_noop c.defaultConfig h

/-- Guarded no-op shape of `pause` outside `Playing`. -/
theorem pause_noop (h : c.state ≠ PlayModeState.Playing) : c.pause = (c, []) := by
  unfold pause; simp [h]

/-- Guarded no-op shape of `resume` outside `Paused`. -/
theorem resume_noop_of_state (h : c.state ≠ PlayModeState.Paused) :
    c.resume = (c, []) := by
  unfold resume; simp [h]

/-- `resume` is rejected whenever the breakpoint flag is set. -/
theorem resume_noop_of_flag (h : c.atBreakpoint = true) : c.resume = (c, []) := by
  unfold resume
  by_cases hs : c.state = PlayModeState.Paused <;> simp [hs, h]

/-- Guarded no-op shape of `stop` in `Stopped`. -/
theorem stop_noop (h : c.state = PlayModeState.Stopped) : c.stop = (c, []) := by
  unfold stop; simp [h]

/-- Guarded no-op shape of `update` outside `Playing`. -/
theorem update_noop (dt : ℚ) (h : c.state ≠ PlayModeState.Playing) :
    c.update dt = (c, []) := by
  unfold update; simp [h]

/-- `stepNext` never changes the controller: outside `Paused` it is guarded,
and in `Paused` the frame it feeds to `update` is discarded by the
`Playing`-only guard of `update`. -/
theorem stepNext_eq : c.stepNext = (c, []) := by
  unfold stepNext
  by_cases h : c.state = PlayModeState.Paused
  · rw [if_neg (not_not_intro h)]
    exact c.update_noop (1 / 60) (by rw [h]; decide)
  · rw [if_pos h]

/-- `stepInto` never changes the controller. -/
theorem stepInto_eq : c.stepInto = (c, []) := by
  unfold stepInto
  by_cases h : c.state = PlayModeState.Paused
  · rw [if_neg (not_not_intro h)]
    exact c.stepNext_eq
  · rw [if_pos h]

/-- `stepOut` never changes the controller. -/
theorem stepOut_eq : c.stepOut = (c, []) := by
  unfold stepOut
  by_cases h : c.state = PlayModeState.Paused
  · rw [if_neg (not_not_intro h)]
    exact c.stepNext_eq
  · rw [if_pos h]

end NoopLemmas

section ExitLemmas

variable (c : PlayModeController)

@[simp] theorem exitPlayMode_state :
    c.exitPlayMode.1.state = PlayModeState.Stopped := by
  unfold exitPlayMode; dsimp only <;> (first | rfl | (split <;> rfl))

@[simp] theorem exitPlayMode_breakpoints :
    c.exitPlayMode.1.breakpoints = c.breakpoints := by
  unfold exitPlayMode; dsimp only <;> (first | rfl | (split <;> rfl))

@[simp] theorem exitPlayMode_vars : c.exitPlayMode.1.vars = [] := by
  unfold exitPlayMode; dsimp only <;> (first | rfl | (split <;> rfl))

@[simp] theorem exitPlayMode_atBreakpoint :
    c.exitPlayMode.1.atBreakpoint = false := by
  unfold exitPlayMode; dsimp only <;> (first | rfl | (split <;> rfl))

theorem stop_fst_of_inPlayMode (h : c.isInPlayMode = true) :
    c.stop.1 = c.exitPlayMode.1 := by
  unfold stop
  have hs : c.state ≠ PlayModeState.Stopped := by
    intro heq; rw [isInPlayMode, heq] at h; simp at h
  simp [hs]

end ExitLemmas

end PlayModeController

namespace PlayModeController

section BehaviorLemmas

variable (c : PlayModeController)

@[simp] theorem pause_fst_atBreakpoint :
    c.pause.1.atBreakpoint = c.atBreakpoint := by
  unfold pause; dsimp only <;> (first | rfl | (split <;> rfl))

@[simp] theorem pause_fst_breakpoints :
    c.pause.1.breakpoints = c.breakpoints := by
  unfold pause; dsimp only <;> (first | rfl | (split <;> rfl))

@[simp] theorem pause_fst_vars : c.pause.1.vars = c.vars := by
  unfold pause; dsimp only <;> (first | rfl | (split <;> rfl))

theorem pause_of_playing (h : c.state = PlayModeState.Playing) :
    c.pause.1 = { c with state := PlayModeState.Paused, enginePlaying := false } := by
  simp [pause, h]

theorem pause_fst_state :
    c.pause.1.state =
      if c.state = PlayModeState.Playing then PlayModeState.Paused else c.state := by
  unfold pause
  by_cases h : c.state = PlayModeState.Playing <;> simp [h]

theorem resume_of_paused (hs : c.state = PlayModeState.Paused)
    (hf : c.atBreakpoint = false) :
    c.resume.1 = { c with state := PlayModeState.Playing, enginePlaying := true } := by
  simp [resume, hs, hf]

theorem continueExecution_of_paused (hf : c.atBreakpoint = true)
    (hs : c.state = PlayModeState.Paused) :
    c.continueExecution.1 =
      { c with atBreakpoint := false, currentBreakpointId := "",
               state := PlayModeState.Playing, enginePlaying := true } := by
  simp [continueExecution, hf, hs]

@[simp] theorem continueExecution_fst_atBreakpoint :
    c.continueExecution.1.atBreakpoint = false ∨ c.continueExecution.1 = c := by
  unfold continueExecution
  by_cases hf : c.atBreakpoint
  · by_cases hs : c.state = PlayModeState.Paused <;> simp [hf, hs]
  · simp [hf]

@[simp] theorem enterPlayMode_fst_state :
    c.enterPlayMode.1.state = PlayModeState.Playing := by
  unfold enterPlayMode; dsimp only <;> (first | rfl | (split <;> rfl))

@[simp] theorem enterPlayMode_fst_atBreakpoint :
    c.enterPlayMode.1.atBreakpoint = c.atBreakpoint := by
  unfold enterPlayMode; dsimp only <;> (first | rfl | (split <;> rfl))

@[simp] theorem enterPlayMode_fst_breakpoints :
    c.enterPlayMode.1.breakpoints = c.breakpoints := by
  unfold enterPlayMode; dsimp only <;> (first | rfl | (split <;> rfl))

theorem playWith_of_stopped (cfg : PlayModeConfig)
    (h : c.state = PlayModeState.Stopped) :
    c.playWith cfg = enterPlayMode { c with config := cfg } := by
  simp [playWith, h]

theorem restart_of_paused (hs : c.state = PlayModeState.Paused) :
    c.restart.1.state = PlayModeState.Playing ∧
    c.restart.1.atBreakpoint = false := by
  simp [restart, resetStats, resume, hs]

theorem notifyError_fst_state_of_notPlaying (e n : String)
    (h : c.state ≠ PlayModeState.Playing) :
    (c.notifyError e n).1.state = c.state ∧
    (c.notifyError e n).1.atBreakpoint = c.atBreakpoint := by
  simp [notifyError, h]

@[simp] theorem shutdown_fst_breakpoints : c.shutdown.1.breakpoints = [] := by
  unfold shutdown; dsimp only <;> (first | rfl | (split <;> rfl))

@[simp] theorem shutdown_fst_vars : c.shutdown.1.vars = [] := by
  unfold shutdown; dsimp only <;> (first | rfl | (split <;> rfl))

theorem shutdown_fst_state_of_inPlayMode (h : c.isInPlayMode = true) :
    c.shutdown.1.state = PlayModeState.Stopped := by
  unfold shutdown
  dsimp only
  rw [if_pos h]
  have := c.stop_fst_of_inPlayMode h
  show (c.stop.1).state = PlayModeState.Stopped
  rw [this, exitPlayMode_state]

theorem shutdown_fst_of_notInPlayMode (h : c.isInPlayMode = false) :
    c.shutdown.1.state = c.state ∧ c.shutdown.1.atBreakpoint = c.atBreakpoint := by
  unfold shutdown
  dsimp only
  rw [if_neg (by simp [h])]
  exact ⟨rfl, rfl⟩

theorem shutdown_fst_atBreakpoint_of_inPlayMode (h : c.isInPlayMode = true) :
    c.shutdown.1.atBreakpoint = false := by
  unfold shutdown
  dsimp only
  rw [if_pos h]
  have := c.stop_fst_of_inPlayMode h
  show (c.stop.1).atBreakpoint = false
  rw [this, exitPlayMode_atBreakpoint]

end BehaviorLemmas

/-- Invariant of the spec: the breakpoint-hit flag is only ever set while the
controller is `Paused`. -/
def atBreakpointInv (c : PlayModeController) : Prop :=
  c.atBreakpoint = true → c.state = PlayModeState.Paused

section InvLemmas

variable (c : PlayModeController)

theorem inv_playWith (cfg : PlayModeConfig) (h : c.atBreakpointInv) :
    ((c.playWith cfg).1).atBreakpointInv := by
  by_cases hs : c.state = PlayModeState.Stopped
  · rw [playWith_of_stopped c cfg hs]
    intro hf
    rw [enterPlayMode_fst_atBreakpoint] at hf
    have : c.atBreakpoint = true := hf
    have := h this
    rw [hs] at this
    cases this
  · rw [c.playWith_noop cfg hs]
    exact h

theorem inv_play (h : c.atBreakpointInv) : (c.play.1).atBreakpointInv := by
  unfold play; exact c.inv_playWith c.defaultConfig h

theorem inv_pause (h : c.atBreakpointInv) : (c.pause.1).atBreakpointInv := by
  by_cases hs : c.state = PlayModeState.Playing
  · rw [c.pause_of_playing hs]
    intro _; rfl
  · rw [c.pause_noop hs]; exact h

theorem inv_resume (h : c.atBreakpointInv) : (c.resume.1).atBreakpointInv := by
  by_cases hf : c.atBreakpoint = true
  · rw [c.resume_noop_of_flag hf]; exact h
  · by_cases hs : c.state = PlayModeState.Paused
    · rw [c.resume_of_paused hs (by simpa using hf)]
      intro hx
      exact absurd hx (by simpa using hf)
    · rw [c.resume_noop_of_state hs]; exact h

theorem inv_continueExecution (h : c.atBreakpointInv) :
    (c.continueExecution.1).atBreakpointInv := by
  rcases c.continueExecution_fst_atBreakpoint with hf | he
  · intro hx; rw [hf] at hx; cases hx
  · rw [he]; exact h

theorem inv_stop (h : c.atBreakpointInv) : (c.stop.1).atBreakpointInv := by
  by_cases hs : c.state = PlayModeState.Stopped
  · rw [c.stop_noop hs]; exact h
  · unfold stop
    rw [if_neg hs]
    intro hx
    rw [exitPlayMode_atBreakpoint] at hx
    cases hx

theorem inv_togglePlayPause (h : c.atBreakpointInv) :
    (c.togglePlayPause.1).atBreakpointInv := by
  unfold togglePlayPause
  cases hs : c.state with
  | Stopped => exact c.inv_play h
  | Playing => exact c.inv_pause h
  | Paused =>
      by_cases hf : c.atBreakpoint
      · simp only [hf, if_true]
        exact c.inv_continueExecution h
      · simp only [hf, if_false]
        exact c.inv_resume h
  | Starting => exact h
  | Stopping => exact h

theorem inv_restart (h : c.atBreakpointInv) : (c.restart.1).atBreakpointInv := by
  by_cases hs : c.state = PlayModeState.Stopped
  · unfold restart
    rw [if_pos hs]
    exact c.inv_play h
  · by_cases hp : c.state = PlayModeState.Paused
    · rcases c.restart_of_paused hp with ⟨_, hflag⟩
      intro hx
      rw [hflag] at hx
      cases hx
    · unfold restart
      rw [if_neg hs]
      dsimp only [resetStats]
      rw [if_neg hp]
      intro hx
      cases hx

theorem inv_update (dt : ℚ) (h : c.atBreakpointInv) :
    ((c.update dt).1).atBreakpointInv := by
  by_cases hs : c.state = PlayModeState.Playing
  · have hflag : c.atBreakpoint = false := by
      by_cases hf : c.atBreakpoint = true
      · rw [h hf] at hs; cases hs
      · simpa using hf
    unfold update
    rw [if_neg (not_not_intro hs)]
    dsimp only
    split
    · split
      · split
        · intro _
          rw [pause_fst_state]
          simp [hs]
        · intro hx; simp at hx; rw [hflag] at hx; cases hx
      · intro hx; simp at hx; rw [hflag] at hx; cases hx
    · intro hx; simp at hx; rw [hflag] at hx; cases hx
  · rw [c.update_noop dt hs]; exact h

theorem inv_stepNext (h : c.atBreakpointInv) : (c.stepNext.1).atBreakpointInv := by
  rw [c.stepNext_eq]; exact h

theorem inv_stepInto (h : c.atBreakpointInv) : (c.stepInto.1).atBreakpointInv := by
  rw [c.stepInto_eq]; exact h

theorem inv_stepOut (h : c.atBreakpointInv) : (c.stepOut.1).atBreakpointInv := by
  rw [c.stepOut_eq]; exact h

theorem inv_notifyError (e n : String) (h : c.atBreakpointInv) :
    ((c.notifyError e n).1).atBreakpointInv := by
  unfold notifyError
  dsimp only
  split
  case isTrue hcond =>
    intro _
    rw [pause_fst_state]
    simp [hcond.2]
  case isFalse =>
    intro hx
    exact h (by simpa using hx)

theorem inv_shutdown (h : c.atBreakpointInv) :
    (c.shutdown.1).atBreakpointInv := by
  by_cases hp : c.isInPlayMode = true
  · intro hx
    rw [c.shutdown_fst_atBreakpoint_of_inPlayMode hp] at hx
    cases hx
  · rcases c.shutdown_fst_of_notInPlayMode (by simpa using hp) with ⟨h1, h2⟩
    intro hx
    rw [h2] at hx
    rw [h1]
    exact h hx

end InvLemmas

end PlayModeController

namespace PlayModeController

/-- Concrete controller obtained by `initialize` followed by `play()`:
state `Playing` under the default configuration. -/
def demoPlaying : PlayModeController := (initCtrl.initApp.play).1

/-- Concrete playing controller with a breakpoint registered on node `n1`
and the current node set to `n1`. -/
def demoArmed : PlayModeController :=
  (demoPlaying.addBreakpoint "n1" "").jumpToNode "n1"

/-- Concrete controller paused at the `n1` breakpoint after one frame of
`update`. -/
def demoPausedAtBp : PlayModeController := (demoArmed.update (1 / 60)).1

/-- Lifts field-preservation facts to preservation of the breakpoint-pause
invariant. -/
theorem inv_of_projections {c d : PlayModeController}
    (h : c.atBreakpointInv) (hstate : d.state = c.state)
    (hflag : d.atBreakpoint = c.atBreakpoint) : d.atBreakpointInv := by
  intro hx
  rw [hflag] at hx
  rw [hstate]
  exact h hx

end PlayModeController

/-- Classifier for the public commands that leave a breakpoint pause for
`Playing`: `continueExecution`, `togglePlayPause` (delegating to it) and
`restart`. -/
def isBpExit (cmd : PMCmd) : Bool :=
  match cmd with
  | PMCmd.continueExecution => true
  | PMCmd.togglePlayPause => true
  | PMCmd.restart => true
  | _ => false

/-- C2: each of stepNext/stepInto/stepOut leaves the whole controller
unchanged and emits nothing, in every state.  In particular, invoked while
`Paused` they do NOT advance the simulation: the 1/60 s frame fed to
`update()` is discarded by the `Playing`-only guard at the top of `update`,
contradicting the claim (and the code's own "step one frame" comment). -/
theorem claim_C2_stepping_is_identity :
    ∀ c : PlayModeController,
      c.stepNext = (c, []) ∧ c.stepInto = (c, []) ∧ c.stepOut = (c, []) :=
  fun c => ⟨c.stepNext_eq, c.stepInto_eq, c.stepOut_eq⟩

/-- C3 counterexample: on a freshly initialized (hence `Stopped`) controller,
`addBreakpoint` makes the breakpoint list non-empty while `isInPlayMode()` is
false, refuting "non-empty only while isInPlayMode() is true". -/
theorem claim_C3_counterexample :
    (PlayModeController.initCtrl.initApp.addBreakpoint "n1" "").breakpoints ≠ [] ∧
    (PlayModeController.initCtrl.initApp.addBreakpoint "n1" "").isInPlayMode = false ∧
    (PlayModeController.initCtrl.initApp.setVariable "x" "1").vars ≠ [] ∧
    (PlayModeController.initCtrl.initApp.setVariable "x" "1").isInPlayMode = false := by
  decide

/-- C3 amended: `shutdown()` clears both the breakpoint list and the variable
table; the exit-play-mode path (run by `stop()`) clears the variable table but
preserves the breakpoint registry; and (per the counterexample) both
collections can be non-empty while not in play mode, since `addBreakpoint`
and `setVariable` are not play-mode-guarded. -/
theorem claim_C3_amended_clearing :
    ∀ c : PlayModeController,
      c.shutdown.1.breakpoints = [] ∧ c.shutdown.1.vars = [] ∧
      c.exitPlayMode.1.vars = [] ∧ c.exitPlayMode.1.breakpoints = c.breakpoints :=
  fun c => ⟨c.shutdown_fst_breakpoints, c.shutdown_fst_vars,
            c.exitPlayMode_vars, c.exitPlayMode_breakpoints⟩

/-- C4 counterexample: from a reachable breakpoint pause, the single public
command `restart()` (not `continueExecution()`) also brings the controller
back to `Playing`, clearing the breakpoint flag on the way. -/
theorem claim_C4_counterexample :
    PlayModeController.demoPausedAtBp.state = PlayModeState.Paused ∧
    PlayModeController.demoPausedAtBp.atBreakpoint = true ∧
    PlayModeController.demoPausedAtBp.restart.1.state = PlayModeState.Playing ∧
    PlayModeController.demoPausedAtBp.restart.1.atBreakpoint = false := by
  decide

/-- C4 amended: from a breakpoint pause (state `Paused` with `m_atBreakpoint`
set), the public commands whose single invocation returns the controller to
`Playing` are exactly `continueExecution()`, `togglePlayPause()` (which
delegates to `continueExecution()`), and `restart()` (which clears the flag
and resumes); every other public command leaves the state away from
`Playing`, and `resume()` in particular is rejected. -/
theorem claim_C4_amended_breakpoint_pause_exits :
    ∀ (cmd : PMCmd) (c : PlayModeController),
      c.state = PlayModeState.Paused → c.atBreakpoint = true →
      (((applyCmd cmd c).1).state = PlayModeState.Playing ↔ isBpExit cmd = true) := by
  intro cmd c hs hf
  have hinplay : c.isInPlayMode = true := by
    simp [PlayModeController.isInPlayMode, hs]
  cases cmd
  case play =>
    simp only [applyCmd]
    rw [c.play_noop (by rw [hs]; decide)]
    simp [hs, isBpExit]
  case playWith cfg =>
    simp only [applyCmd]
    rw [c.playWith_noop cfg (by rw [hs]; decide)]
    simp [hs, isBpExit]
  case pause =>
    simp only [applyCmd]
    rw [c.pause_noop (by rw [hs]; decide)]
    simp [hs, isBpExit]
  case resume =>
    simp only [applyCmd]
    rw [c.resume_noop_of_flag hf]
    simp [hs, isBpExit]
  case stop =>
    simp only [applyCmd]
    rw [c.stop_fst_of_inPlayMode hinplay]
    simp [isBpExit]
  case togglePlayPause =>
    simp only [applyCmd, PlayModeController.togglePlayPause, hs, hf, if_true]
    rw [c.continueExecution_of_paused hf hs]
    simp [isBpExit]
  case restart =>
    rcases c.restart_of_paused hs with ⟨h1, _⟩
    simp only [applyCmd]
    rw [h1]
    simp [isBpExit]
  case stepNext =>
    simp only [applyCmd]
    rw [c.stepNext_eq]
    simp [hs, isBpExit]
  case stepInto =>
    simp only [applyCmd]
    rw [c.stepInto_eq]
    simp [hs, isBpExit]
  case stepOut =>
    simp only [applyCmd]
    rw [c.stepOut_eq]
    simp [hs, isBpExit]
  case addBreakpoint n cond => simp [applyCmd, isBpExit, hs]
  case removeBreakpoint b => simp [applyCmd, isBpExit, hs]
  case toggleBreakpoint n => simp [applyCmd, isBpExit, hs]
  case setBreakpointEnabled b e => simp [applyCmd, isBpExit, hs]
  case clearAllBreakpoints => simp [applyCmd, isBpExit, hs]
  case continueExecution =>
    simp only [applyCmd]
    rw [c.continueExecution_of_paused hf hs]
    simp [isBpExit]
  case jumpToScene s => simp [applyCmd, isBpExit, hs]
  case jumpToNode n => simp [applyCmd, isBpExit, hs]
  case setVariable k v => simp [applyCmd, isBpExit, hs]
  case setTimeScale s => simp [applyCmd, isBpExit, hs]
  case setDefaultConfig cfg => simp [applyCmd, isBpExit, hs]
  case update dt =>
    simp only [applyCmd]
    rw [c.update_noop dt (by rw [hs]; decide)]
    simp [hs, isBpExit]
  case notifyError e n =>
    rcases c.notifyError_fst_state_of_notPlaying e n (by rw [hs]; decide) with ⟨h1, _⟩
    simp only [applyCmd]
    rw [h1]
    simp [hs, isBpExit]
  case initApp => simp [applyCmd, isBpExit, hs]
  case shutdown =>
    simp only [applyCmd]
    rw [c.shutdown_fst_state_of_inPlayMode hinplay]
    simp [isBpExit]
  case addListener l => simp [applyCmd, isBpExit, hs]
  case removeListener l => simp [applyCmd, isBpExit, hs]

/-- C4 amended witness at a reachable breakpoint pause and the
`continueExecution` command. -/
theorem claim_C4_amended_witness :
    ((applyCmd PMCmd.continueExecution PlayModeController.demoPausedAtBp).1).state =
      PlayModeState.Playing ↔ isBpExit PMCmd.continueExecution = true :=
  claim_C4_amended_breakpoint_pause_exits PMCmd.continueExecution
    PlayModeController.demoPausedAtBp (by decide) (by decide)

/-- C5: the breakpoint-flag invariant (`m_atBreakpoint` implies the state is
`Paused`) holds in the initial state and is preserved by every public
command. -/
theorem claim_C5_atBreakpoint_implies_paused :
    PlayModeController.initCtrl.atBreakpointInv ∧
    ∀ (cmd : PMCmd) (c : PlayModeController),
      c.atBreakpointInv → ((applyCmd cmd c).1).atBreakpointInv := by
  constructor
  · intro hx
    exact absurd hx (by decide)
  · intro cmd c h
    cases cmd
    case play => exact c.inv_play h
    case playWith cfg => exact c.inv_playWith cfg h
    case pause => exact c.inv_pause h
    case resume => exact c.inv_resume h
    case stop => exact c.inv_stop h
    case togglePlayPause => exact c.inv_togglePlayPause h
    case restart => exact c.inv_restart h
    case stepNext => exact c.inv_stepNext h
    case stepInto => exact c.inv_stepInto h
    case stepOut => exact c.inv_stepOut h
    case addBreakpoint n cond =>
      exact PlayModeController.inv_of_projections h (by simp [applyCmd]) (by simp [applyCmd])
    case removeBreakpoint b =>
      exact PlayModeController.inv_of_projections h (by simp [applyCmd]) (by simp [applyCmd])
    case toggleBreakpoint n =>
      exact PlayModeController.inv_of_projections h (by simp [applyCmd]) (by simp [applyCmd])
    case setBreakpointEnabled b e =>
      exact PlayModeController.inv_of_projections h (by simp [applyCmd]) (by simp [applyCmd])
    case clearAllBreakpoints =>
      exact PlayModeController.inv_of_projections h (by simp [applyCmd]) (by simp [applyCmd])
    case continueExecution => exact c.inv_continueExecution h
    case jumpToScene s =>
      exact PlayModeController.inv_of_projections h (by simp [applyCmd]) (by simp [applyCmd])
    case jumpToNode n =>
      exact PlayModeController.inv_of_projections h (by simp [applyCmd]) (by simp [applyCmd])
    case setVariable k v =>
      exact PlayModeController.inv_of_projections h (by simp [applyCmd]) (by simp [applyCmd])
    case setTimeScale s =>
      exact PlayModeController.inv_of_projections h (by simp [applyCmd]) (by simp [applyCmd])
    case setDefaultConfig cfg =>
      exact PlayModeController.inv_of_projections h (by simp [applyCmd]) (by simp [applyCmd])
    case update dt => exact c.inv_update dt h
    case notifyError e n => exact c.inv_notifyError e n h
    case initApp =>
      exact PlayModeController.inv_of_projections h (by simp [applyCmd]) (by simp [applyCmd])
    case shutdown => exact c.inv_shutdown h
    case addListener l =>
      exact PlayModeController.inv_of_projections h (by simp [applyCmd]) (by simp [applyCmd])
    case removeListener l =>
      exact PlayModeController.inv_of_projections h (by simp [applyCmd]) (by simp [applyCmd])

/-- C5 witness: the invariant-preservation statement applied at a concrete
reachable breakpoint pause and the `stop` command. -/
theorem claim_C5_witness :
    ((applyCmd PMCmd.stop PlayModeController.demoPausedAtBp).1).atBreakpointInv :=
  claim_C5_atBreakpoint_implies_paused.2 PMCmd.stop
    PlayModeController.demoPausedAtBp (by intro _; decide)

/-- C6: from any in-play-mode state, `stop()` empties the variable table,
leaves every `getBreakpointForNode` lookup unchanged, and lands in
`Stopped`. -/
theorem claim_C6_stop_preserves_breakpoints :
    ∀ c : PlayModeController, c.isInPlayMode = true →
      c.stop.1.getAllVariables = [] ∧
      (∀ n, c.stop.1.getBreakpointForNode n = c.getBreakpointForNode n) ∧
      c.stop.1.state = PlayModeState.Stopped := by
  intro c h
  rw [c.stop_fst_of_inPlayMode h]
  refine ⟨?_, ?_, c.exitPlayMode_state⟩
  · unfold PlayModeController.getAllVariables
    rw [c.exitPlayMode_vars]
  · intro n
    unfold PlayModeController.getBreakpointForNode
    rw [c.exitPlayMode_breakpoints]

/-- C6 witness at a concrete playing controller with a registered breakpoint
and a set variable. -/
theorem claim_C6_witness :
    ((PlayModeController.demoArmed.setVariable "x" "1").stop.1.getAllVariables = [] ∧
     (PlayModeController.demoArmed.setVariable "x" "1").stop.1.getBreakpointForNode "n1" =
       (PlayModeController.demoArmed.setVariable "x" "1").getBreakpointForNode "n1" ∧
     (PlayModeController.demoArmed.setVariable "x" "1").stop.1.state =
       PlayModeState.Stopped) :=
  ⟨(claim_C6_stop_preserves_breakpoints _ (by decide)).1,
   (claim_C6_stop_preserves_breakpoints _ (by decide)).2.1 "n1",
   (claim_C6_stop_preserves_breakpoints _ (by decide)).2.2⟩

/-- C7: the defensive no-op policy of the four play controls: `play` (both
overloads) outside `Stopped`, `pause` outside `Playing`, `resume` unless
`Paused` with the breakpoint flag clear, and `stop` in `Stopped` all return
the controller unchanged and emit nothing (totality of the model covers
"never throws"). -/
theorem claim_C7_guarded_noops :
    ∀ (c : PlayModeController) (cfg : PlayModeConfig),
      (c.state ≠ PlayModeState.Stopped → c.play = (c, []) ∧ c.playWith cfg = (c, [])) ∧
      (c.state ≠ PlayModeState.Playing → c.pause = (c, [])) ∧
      (¬ (c.state = PlayModeState.Paused ∧ c.atBreakpoint = false) →
        c.resume = (c, [])) ∧
      (c.state = PlayModeState.Stopped → c.stop = (c, [])) := by
  intro c cfg
  refine ⟨fun h => ⟨c.play_noop h, c.playWith_noop cfg h⟩,
          fun h => c.pause_noop h, fun h => ?_, fun h => c.stop_noop h⟩
  by_cases hs : c.state = PlayModeState.Paused
  · by_cases hfb : c.atBreakpoint = true
    · exact c.resume_noop_of_flag hfb
    · exact absurd ⟨hs, by simpa using hfb⟩ h
  · exact c.resume_noop_of_state hs

/-- C7 witness: `resume` at a concrete breakpoint pause is a no-op. -/
theorem claim_C7_witness :
    PlayModeController.demoPausedAtBp.resume =
      (PlayModeController.demoPausedAtBp, []) :=
  (claim_C7_guarded_noops PlayModeController.demoPausedAtBp {}).2.2.1
    (by decide)

/-- The registry never holds two breakpoints with the same generated id. -/
def idsNodup (l : List Breakpoint) : Prop :=
  (l.map Breakpoint.id).Nodup

/-- The registry never holds two breakpoints targeting the same node (the
"at most one breakpoint per nodeId" registration invariant). -/
def nodesNodup (l : List Breakpoint) : Prop :=
  (l.map Breakpoint.nodeId).Nodup

namespace PlayModeController

theorem registerHit_map_nodeId_sublist (l : List Breakpoint) (bid : String) :
    ((registerHit l bid).map Breakpoint.nodeId).Sublist
      (l.map Breakpoint.nodeId) := by
  induction l with
  | nil => simp [registerHit]
  | cons hd tl ih =>
    unfold registerHit
    by_cases h : (hd.id == bid) = true
    · rw [if_pos h]
      by_cases ho : hd.hitOnce = true
      · rw [if_pos ho]
        simp only [List.map_cons]
        exact List.sublist_cons_self _ _
      · rw [if_neg ho]
        simp only [List.map_cons]
        exact List.Sublist.cons₂ _ (List.Sublist.refl _)
    · rw [if_neg h]
      simp only [List.map_cons]
      exact List.Sublist.cons₂ _ ih

theorem nodesNodup_registerHit {l : List Breakpoint} (bid : String)
    (h : nodesNodup l) : nodesNodup (registerHit l bid) :=
  List.Nodup.sublist (registerHit_map_nodeId_sublist l bid) h

theorem setEnabledFirst_map_nodeId (l : List Breakpoint) (bid : String)
    (e : Bool) :
    (setEnabledFirst l bid e).map Breakpoint.nodeId =
      l.map Breakpoint.nodeId := by
  induction l with
  | nil => simp [setEnabledFirst]
  | cons hd tl ih =>
    unfold setEnabledFirst
    by_cases h : (hd.id == bid) = true
    · rw [if_pos h]; simp
    · rw [if_neg h]; simp [ih]

theorem nodesNodup_eraseP {l : List Breakpoint} (p : Breakpoint → Bool)
    (h : nodesNodup l) : nodesNodup (l.eraseP p) :=
  List.Nodup.sublist (List.Sublist.map _ (List.eraseP_sublist l)) h

theorem nodesNodup_addBreakpoint {c : PlayModeController} (n cond : String)
    (h : nodesNodup c.breakpoints) :
    nodesNodup (c.addBreakpoint n cond).breakpoints := by
  unfold addBreakpoint
  by_cases hs : (c.getBreakpointForNode n).isSome = true
  · rw [if_pos hs]; exact h
  · rw [if_neg hs]
    have hnone : c.getBreakpointForNode n = none :=
      Option.not_isSome_iff_eq_none.mp hs
    unfold getBreakpointForNode at hnone
    rw [List.find?_eq_none] at hnone
    show nodesNodup (c.breakpoints ++ [_])
    unfold nodesNodup
    rw [List.map_append, List.nodup_append]
    refine ⟨h, by simp, ?_⟩
    intro a ha hb
    simp only [List.map_cons, List.map_nil, List.mem_cons,
      List.not_mem_nil, or_false] at hb
    rcases List.mem_map.mp ha with ⟨x, hx, hxa⟩
    have := hnone x hx
    simp only [beq_iff_eq] at this
    rw [← hxa] at hb
    exact this (by rw [hb])

section MoreBreakpointProjections

variable (c : PlayModeController)

@[simp] theorem resume_fst_breakpoints :
    c.resume.1.breakpoints = c.breakpoints := by
  unfold resume; dsimp only <;> (first | rfl | (split <;> (first | rfl | (split <;> rfl))))

@[simp] theorem continueExecution_fst_breakpoints :
    c.continueExecution.1.breakpoints = c.breakpoints := by
  unfold continueExecution; dsimp only <;> (first | rfl | (split <;> (first | rfl | (split <;> rfl))))

@[simp] theorem playWith_fst_breakpoints (cfg : PlayModeConfig) :
    (c.playWith cfg).1.breakpoints = c.breakpoints := by
  unfold playWith
  by_cases h : c.state = PlayModeState.Stopped
  · rw [if_neg (not_not_intro h)]
    rw [enterPlayMode_fst_breakpoints]
  · rw [if_pos h]

@[simp] theorem play_fst_breakpoints : c.play.1.breakpoints = c.breakpoints := by
  unfold play; exact c.playWith_fst_breakpoints c.defaultConfig

@[simp] theorem stop_fst_breakpoints : c.stop.1.breakpoints = c.breakpoints := by
  unfold stop
  by_cases h : c.state = PlayModeState.Stopped
  · rw [if_pos h]
  · rw [if_neg h]
    rw [exitPlayMode_breakpoints]

@[simp] theorem togglePlayPause_fst_breakpoints :
    c.togglePlayPause.1.breakpoints = c.breakpoints := by
  unfold togglePlayPause
  cases hs : c.state <;> (try dsimp only) <;>
    (first | rfl | (split <;> simp) | simp)

@[simp] theorem restart_fst_breakpoints :
    c.restart.1.breakpoints = c.breakpoints := by
  unfold restart
  by_cases h : c.state = PlayModeState.Stopped
  · rw [if_pos h]; rw [play_fst_breakpoints]
  · rw [if_neg h]
    dsimp only [resetStats]
    split
    · rw [resume_fst_breakpoints]
    · rfl

@[simp] theorem notifyError_fst_breakpoints (e n : String) :
    (c.notifyError e n).1.breakpoints = c.breakpoints := by
  unfold notifyError
  dsimp only
  split
  · rw [pause_fst_breakpoints]
  · rfl

@[simp] theorem jumpToScene_breakpoints (s : String) :
    (c.jumpToScene s).breakpoints = c.breakpoints := by
  unfold jumpToScene; split <;> rfl

@[simp] theorem jumpToNode_breakpoints (n : String) :
    (c.jumpToNode n).breakpoints = c.breakpoints := by
  unfold jumpToNode; split <;> rfl

@[simp] theorem setVariable_breakpoints (k v : String) :
    (c.setVariable k v).breakpoints = c.breakpoints := rfl

@[simp] theorem setTimeScale_breakpoints (s : ℚ) :
    (c.setTimeScale s).breakpoints = c.breakpoints := by
  unfold setTimeScale; dsimp only <;> (first | rfl | (split <;> rfl))

@[simp] theorem setDefaultConfig_breakpoints (cfg : PlayModeConfig) :
    (c.setDefaultConfig cfg).breakpoints = c.breakpoints := rfl

@[simp] theorem addListener_breakpoints (l : Nat) :
    (c.addListener l).breakpoints = c.breakpoints := by
  unfold addListener; split <;> rfl

@[simp] theorem removeListener_breakpoints (l : Nat) :
    (c.removeListener l).breakpoints = c.breakpoints := rfl

@[simp] theorem initApp_breakpoints : c.initApp.breakpoints = c.breakpoints := rfl

end MoreBreakpointProjections

/-- Transport of the node-uniqueness invariant along registry equality. -/
theorem nodesNodup_congr {l₁ l₂ : List Breakpoint} (e : l₁ = l₂)
    (h : nodesNodup l₂) : nodesNodup l₁ := e ▸ h

/-- Under the node-uniqueness invariant, at most one registry entry targets
any given node. -/
theorem countP_nodeId_le_one {l : List Breakpoint} (n : String)
    (h : nodesNodup l) : l.countP (fun bp => bp.nodeId == n) ≤ 1 := by
  induction l with
  | nil => simp
  | cons hd tl ih =>
    unfold nodesNodup at h
    rw [List.map_cons, List.nodup_cons] at h
    rw [List.countP_cons]
    by_cases hhd : (hd.nodeId == n) = true
    · have hzero : tl.countP (fun bp => bp.nodeId == n) = 0 := by
        rw [List.countP_eq_zero]
        intro a ha
        simp only [beq_iff_eq]
        intro hna
        exact h.1 (List.mem_map.mpr ⟨a, ha, by
          rw [hna]; exact (beq_iff_eq.mp hhd).symm⟩)
      simp [hhd, hzero]
    · simp only [hhd, if_false]
      simpa using ih (by unfold nodesNodup; exact h.2)

theorem update_nodesNodup (c : PlayModeController) (dt : ℚ)
    (h : nodesNodup c.breakpoints) :
    nodesNodup ((c.update dt).1.breakpoints) := by
  unfold update
  dsimp only
  split
  · exact h
  · split
    · split
      · split
        · rw [pause_fst_breakpoints]
          exact nodesNodup_registerHit _ h
        · exact h
      · exact h
    · exact h

/-- C9: (i) a second `addBreakpoint` with the same nodeId is silently
rejected (the controller is unchanged); (ii) after `addBreakpoint` exactly
one breakpoint targets the node, assuming the at-most-one-per-node registry
invariant; (iii) that invariant holds initially and is preserved by every
public command, so at most one breakpoint per nodeId ever exists. -/
theorem claim_C9_unique_breakpoint_per_node :
    (∀ (c : PlayModeController) (n cond1 cond2 : String),
        (c.addBreakpoint n cond1).addBreakpoint n cond2 = c.addBreakpoint n cond1) ∧
    (∀ (c : PlayModeController) (n cond : String), nodesNodup c.breakpoints →
        (c.addBreakpoint n cond).breakpoints.countP
          (fun bp => bp.nodeId == n) = 1) ∧
    nodesNodup PlayModeController.initCtrl.breakpoints ∧
    (∀ (cmd : PMCmd) (c : PlayModeController), nodesNodup c.breakpoints →
        nodesNodup ((applyCmd cmd c).1.breakpoints)) := by
  have hfound : ∀ (c : PlayModeController) (n cond : String),
      (c.getBreakpointForNode n).isSome = true → c.addBreakpoint n cond = c := by
    intro c n cond h
    unfold addBreakpoint
    rw [if_pos h]
  have hself : ∀ (c : PlayModeController) (n cond : String),
      (((c.addBreakpoint n cond).getBreakpointForNode n)).isSome = true := by
    intro c n cond
    by_cases hs : ((c.getBreakpointForNode n)).isSome = true
    · rw [hfound c n cond hs]
      exact hs
    · unfold addBreakpoint
      rw [if_neg hs]
      have hnone : c.getBreakpointForNode n = none :=
        Option.not_isSome_iff_eq_none.mp hs
      unfold getBreakpointForNode at hnone
      unfold getBreakpointForNode
      dsimp only
      rw [List.find?_append, hnone]
      simp
  refine ⟨?_, ?_, by simp [nodesNodup, PlayModeController.initCtrl], ?_⟩
  · intro c n cond1 cond2
    exact hfound _ n cond2 (hself c n cond1)
  · intro c n cond h
    by_cases hs : ((c.getBreakpointForNode n)).isSome = true
    · rw [hfound c n cond hs]
      have hex : ∃ x ∈ c.breakpoints, (x.nodeId == n) = true := by
        have := hs
        unfold getBreakpointForNode at this
        exact List.find?_isSome.mp this
      have hle : c.breakpoints.countP (fun bp => bp.nodeId == n) ≤ 1 :=
        countP_nodeId_le_one n h
      have hpos : 0 < c.breakpoints.countP (fun bp => bp.nodeId == n) := by
        rcases hex with ⟨x, hx, hpx⟩
        exact List.countP_pos.mpr ⟨x, hx, hpx⟩
      omega
    · unfold addBreakpoint
      rw [if_neg hs]
      have hnone : c.getBreakpointForNode n = none :=
        Option.not_isSome_iff_eq_none.mp hs
      unfold getBreakpointForNode at hnone
      rw [List.find?_eq_none] at hnone
      dsimp only
      rw [List.countP_append, List.countP_eq_zero.mpr hnone]
      simp
  · intro cmd c h
    cases cmd
    case play => exact nodesNodup_congr (by simp [applyCmd]) h
    case playWith cfg => exact nodesNodup_congr (by simp [applyCmd]) h
    case pause => exact nodesNodup_congr (by simp [applyCmd]) h
    case resume => exact nodesNodup_congr (by simp [applyCmd]) h
    case stop => exact nodesNodup_congr (by simp [applyCmd]) h
    case togglePlayPause => exact nodesNodup_congr (by simp [applyCmd]) h
    case restart => exact nodesNodup_congr (by simp [applyCmd]) h
    case stepNext => rw [show (applyCmd PMCmd.stepNext c) = c.stepNext from rfl,
      c.stepNext_eq]; exact h
    case stepInto => rw [show (applyCmd PMCmd.stepInto c) = c.stepInto from rfl,
      c.stepInto_eq]; exact h
    case stepOut => rw [show (applyCmd PMCmd.stepOut c) = c.stepOut from rfl,
      c.stepOut_eq]; exact h
    case addBreakpoint n cond => exact nodesNodup_addBreakpoint n cond h
    case removeBreakpoint b => exact nodesNodup_eraseP _ h
    case toggleBreakpoint n =>
      show nodesNodup (c.toggleBreakpoint n).breakpoints
      unfold toggleBreakpoint
      split
      · exact nodesNodup_eraseP _ h
      · exact nodesNodup_addBreakpoint n "" h
    case setBreakpointEnabled b e =>
      show nodesNodup (c.setBreakpointEnabled b e).breakpoints
      unfold nodesNodup setBreakpointEnabled
      rw [setEnabledFirst_map_nodeId]
      exact h
    case clearAllBreakpoints => simp [nodesNodup, applyCmd, clearAllBreakpoints]
    case continueExecution => exact nodesNodup_congr (by simp [applyCmd]) h
    case jumpToScene s => show nodesNodup (c.jumpToScene s).breakpoints
                          unfold jumpToScene
                          split <;> exact h
    case jumpToNode n => show nodesNodup (c.jumpToNode n).breakpoints
                         unfold jumpToNode
                         split <;> exact h
    case setVariable k v => exact h
    case setTimeScale s => show nodesNodup (c.setTimeScale s).breakpoints
                           unfold setTimeScale
                           dsimp only <;> (first | exact h | (split <;> exact h))
    case setDefaultConfig cfg => exact h
    case update dt => exact update_nodesNodup c dt h
    case notifyError e n => exact nodesNodup_congr (by simp [applyCmd]) h
    case initApp => exact h
    case shutdown => simp [nodesNodup, applyCmd]
    case addListener l => show nodesNodup (c.addListener l).breakpoints
                          unfold addListener
                          split <;> exact h
    case removeListener l => exact h

end PlayModeController

/-- C9 witness: double registration on a concrete armed controller, the
exact-count consequence, and invariant preservation at a concrete command. -/
theorem claim_C9_witness :
    ((PlayModeController.initCtrl.initApp.addBreakpoint "n1" "a").addBreakpoint "n1" "b" =
      PlayModeController.initCtrl.initApp.addBreakpoint "n1" "a") ∧
    (PlayModeController.initCtrl.initApp.addBreakpoint "n1" "a").breakpoints.countP
      (fun bp => bp.nodeId == "n1") = 1 ∧
    nodesNodup ((applyCmd (PMCmd.toggleBreakpoint "n1")
      PlayModeController.demoArmed).1.breakpoints) :=
  ⟨PlayModeController.claim_C9_unique_breakpoint_per_node.1 PlayModeController.initCtrl.initApp "n1" "a" "b",
   PlayModeController.claim_C9_unique_breakpoint_per_node.2.1 PlayModeController.initCtrl.initApp "n1" "a"
     (by unfold nodesNodup; decide),
   PlayModeController.claim_C9_unique_breakpoint_per_node.2.2.2 (PMCmd.toggleBreakpoint "n1")
     PlayModeController.demoArmed (by unfold nodesNodup; decide)⟩

namespace PlayModeController

/-- Shape of the paused controller state produced by `pause` from `Playing`. -/
theorem pause_fst_state_of_playing (c : PlayModeController)
    (h : c.state = PlayModeState.Playing) :
    c.pause.1.state = PlayModeState.Paused := by
  simp [pause, h]

/-- Notification trace of `pause` from `Playing`, in emission order: the
generic state-change callback, the `onPlayModePaused` callback and the bus
event; the callback snapshots are the already-paused controller. -/
theorem pause_snd_of_playing (c : PlayModeController)
    (h : c.state = PlayModeState.Playing) :
    c.pause.2 =
      [Evt.stateChanged PlayModeState.Playing PlayModeState.Paused c.pause.1,
       Evt.life LifeKind.paused c.pause.1,
       Evt.busStateChanged PlayModeState.Playing PlayModeState.Paused] := by
  simp [pause, h]

/-- Registry lookup after a hit on the first breakpoint found for a node:
with unique ids and unique node targets, the entry is gone when `hitOnce`
was set and carries the incremented hit count otherwise. -/
theorem registerHit_find_nodeId {l : List Breakpoint} {n : String}
    {bp : Breakpoint} (hid : idsNodup l) (hnode : nodesNodup l)
    (h : l.find? (fun b => b.nodeId == n) = some bp) :
    (registerHit l bp.id).find? (fun b => b.nodeId == n) =
      if bp.hitOnce then none
      else some { bp with hitCount := bp.hitCount + 1 } := by
  induction l with
  | nil => simp at h
  | cons hd tl ih =>
    rw [List.find?_cons] at h
    unfold idsNodup at hid
    unfold nodesNodup at hnode
    rw [List.map_cons, List.nodup_cons] at hid hnode
    by_cases hhd : (hd.nodeId == n) = true
    · simp only [hhd] at h
      have hbp : hd = bp := by simpa using h
      subst hbp
      unfold registerHit
      rw [if_pos (beq_self_eq_true hd.id)]
      by_cases ho : hd.hitOnce = true
      · rw [if_pos ho, if_pos ho]
        rw [List.find?_eq_none]
        intro x hx
        simp only [beq_iff_eq]
        intro he
        exact hnode.1 (List.mem_map.mpr
          ⟨x, hx, he.trans (beq_iff_eq.mp hhd).symm⟩)
      · rw [if_neg ho, if_neg ho]
        rw [List.find?_cons]
        simp only [hhd]
    · have hhd' : (hd.nodeId == n) = false := by
        simpa using hhd
      simp only [hhd'] at h
      have hmem := List.mem_of_find?_eq_some h
      have hne : (hd.id == bp.id) = false := by
        rw [beq_eq_false_iff_ne]
        intro heq
        exact hid.1 (List.mem_map.mpr ⟨bp, hmem, heq.symm⟩)
      unfold registerHit
      rw [if_neg (by simp [hne])]
      rw [List.find?_cons]
      simp only [hhd']
      exact ih hid.2 hnode.2 h

end PlayModeController

/-- C1: while `Playing` with breakpoints enabled, a non-empty current node
and an enabled breakpoint found for it, `update(dt)` sets `m_atBreakpoint`,
transitions to `Paused`, and the registry already reflects the hit when the
pause notification fires: the entry for the node carries hit count + 1 (so 1
after the first hit) unless `hitOnce` removed it, and the `onPlayModePaused`
callback snapshot is exactly the final controller, whose registry holds the
incremented (or removed) entry — i.e. the increment and removal happen
before the pause transition is announced. -/
theorem claim_C1_breakpoint_hit_pauses :
    ∀ (c : PlayModeController) (dt : ℚ) (bp : Breakpoint),
      c.state = PlayModeState.Playing →
      c.config.enableBreakpoints = true →
      c.currentNodeId ≠ "" →
      c.getBreakpointForNode c.currentNodeId = some bp →
      bp.enabled = true →
      idsNodup c.breakpoints →
      nodesNodup c.breakpoints →
      ((c.update dt).1.atBreakpoint = true ∧
       (c.update dt).1.state = PlayModeState.Paused ∧
       (c.update dt).1.getBreakpointForNode c.currentNodeId =
         (if bp.hitOnce then none
          else some { bp with hitCount := bp.hitCount + 1 }) ∧
       Evt.life LifeKind.paused (c.update dt).1 ∈ (c.update dt).2) := by
  intro c dt bp hstate hen hcn hfind hbe hid hnode
  have hfind' : c.breakpoints.find?
      (fun b => b.nodeId == c.currentNodeId) = some bp := hfind
  unfold PlayModeController.update
  rw [if_neg (not_not_intro hstate)]
  dsimp only
  simp only [PlayModeController.updateStats_config,
    PlayModeController.updateStats_currentNodeId,
    PlayModeController.updateStats_breakpoints,
    PlayModeController.updateStats_state,
    PlayModeController.updateStats_atBreakpoint,
    PlayModeController.updateStats_vars]
  rw [if_pos (And.intro hen hcn)]
  split
  case h_1 bp' heq =>
    have h2 : c.getBreakpointForNode c.currentNodeId = some bp' := heq
    rw [hfind] at h2
    obtain rfl : bp = bp' := Option.some.inj h2
    rw [if_pos hbe]
    refine ⟨by simp, ?_, ?_, ?_⟩
    · simp [PlayModeController.pause_fst_state_of_playing, hstate]
    · unfold PlayModeController.getBreakpointForNode
      simp only [PlayModeController.pause_fst_breakpoints]
      exact PlayModeController.registerHit_find_nodeId hid hnode hfind'
    · simp [PlayModeController.pause_snd_of_playing, hstate]
  case h_2 heq =>
    have h2 : c.getBreakpointForNode c.currentNodeId = none := heq
    rw [hfind] at h2
    cases h2

/-- C1 witness: the spec scenario play(), addBreakpoint("n1"), jump to node
"n1", then one frame of update: paused at the breakpoint with the registry
hit count at 1. -/
theorem claim_C1_witness :
    (PlayModeController.demoArmed.update (1 / 60)).1.atBreakpoint = true ∧
    (PlayModeController.demoArmed.update (1 / 60)).1.state =
      PlayModeState.Paused ∧
    (PlayModeController.demoArmed.update (1 / 60)).1.getBreakpointForNode
        PlayModeController.demoArmed.currentNodeId =
      (if ({ id := "bp_1", nodeId := "n1", condition := "", enabled := true,
             hitOnce := false, hitCount := 0 } : Breakpoint).hitOnce then none
       else some { id := "bp_1", nodeId := "n1", condition := "",
                   enabled := true, hitOnce := false, hitCount := 1 }) ∧
    Evt.life LifeKind.paused (PlayModeController.demoArmed.update (1 / 60)).1 ∈
      (PlayModeController.demoArmed.update (1 / 60)).2 :=
  claim_C1_breakpoint_hit_pauses PlayModeController.demoArmed (1 / 60)
    { id := "bp_1", nodeId := "n1", condition := "", enabled := true,
      hitOnce := false, hitCount := 0 }
    (by decide) (by decide) (by decide) (by decide) (by decide)
    (by unfold idsNodup; decide) (by unfold nodesNodup; decide)

/-- C10: on a breakpoint hit, the `onBreakpointHit` callback receives the
breakpoint copy captured before the hit-count increment, and the published
`BreakpointHitEvent` carries that pre-hit count (0 on the first hit), while
the registry entry (when not removed for `hitOnce`) holds the incremented
count. -/
theorem claim_C10_prehit_copy_in_notifications :
    ∀ (c : PlayModeController) (dt : ℚ) (bp : Breakpoint),
      c.state = PlayModeState.Playing →
      c.config.enableBreakpoints = true →
      c.currentNodeId ≠ "" →
      c.getBreakpointForNode c.currentNodeId = some bp →
      bp.enabled = true →
      idsNodup c.breakpoints →
      nodesNodup c.breakpoints →
      (Evt.breakpointHit bp (c.update dt).1 ∈ (c.update dt).2 ∧
       Evt.busBreakpointHit bp.id bp.nodeId bp.hitCount ∈ (c.update dt).2 ∧
       (bp.hitOnce = false →
         (c.update dt).1.getBreakpointForNode c.currentNodeId =
           some { bp with hitCount := bp.hitCount + 1 })) := by
  intro c dt bp hstate hen hcn hfind hbe hid hnode
  have hfind' : c.breakpoints.find?
      (fun b => b.nodeId == c.currentNodeId) = some bp := hfind
  unfold PlayModeController.update
  rw [if_neg (not_not_intro hstate)]
  dsimp only
  simp only [PlayModeController.updateStats_config,
    PlayModeController.updateStats_currentNodeId,
    PlayModeController.updateStats_breakpoints,
    PlayModeController.updateStats_state,
    PlayModeController.updateStats_atBreakpoint,
    PlayModeController.updateStats_vars]
  rw [if_pos (And.intro hen hcn)]
  split
  case h_1 bp' heq =>
    have h2 : c.getBreakpointForNode c.currentNodeId = some bp' := heq
    rw [hfind] at h2
    obtain rfl : bp = bp' := Option.some.inj h2
    rw [if_pos hbe]
    refine ⟨?_, ?_, ?_⟩
    · simp [PlayModeController.pause_snd_of_playing, hstate]
    · simp [PlayModeController.pause_snd_of_playing, hstate]
    · intro ho
      unfold PlayModeController.getBreakpointForNode
      simp only [PlayModeController.pause_fst_breakpoints]
      rw [PlayModeController.registerHit_find_nodeId hid hnode hfind']
      rw [if_neg (by simp [ho])]
  case h_2 heq =>
    have h2 : c.getBreakpointForNode c.currentNodeId = none := heq
    rw [hfind] at h2
    cases h2

/-- C10 witness: in the concrete scenario the callback and bus event carry
hit count 0 while the registry holds 1. -/
theorem claim_C10_witness :
    Evt.breakpointHit
      { id := "bp_1", nodeId := "n1", condition := "", enabled := true,
        hitOnce := false, hitCount := 0 }
      (PlayModeController.demoArmed.update (1 / 60)).1 ∈
      (PlayModeController.demoArmed.update (1 / 60)).2 ∧
    Evt.busBreakpointHit "bp_1" "n1" 0 ∈
      (PlayModeController.demoArmed.update (1 / 60)).2 ∧
    (false = false →
      (PlayModeController.demoArmed.update (1 / 60)).1.getBreakpointForNode
          PlayModeController.demoArmed.currentNodeId =
        some { id := "bp_1", nodeId := "n1", condition := "", enabled := true,
               hitOnce := false, hitCount := 1 }) :=
  claim_C10_prehit_copy_in_notifications PlayModeController.demoArmed (1 / 60)
    { id := "bp_1", nodeId := "n1", condition := "", enabled := true,
      hitOnce := false, hitCount := 0 }
    (by decide) (by decide) (by decide) (by decide) (by decide)
    (by unfold idsNodup; decide) (by unfold nodesNodup; decide)

namespace PlayModeController

/-- Breakpoint value appended by `addBreakpoint` at the current id counter
with an empty condition (the shape `toggleBreakpoint` re-adds). -/
def freshBp (c : PlayModeController) (n : String) : Breakpoint :=
  { id := c.freshBreakpointId, nodeId := n, condition := "",
    enabled := true, hitOnce := false, hitCount := 0 }

end PlayModeController

/-- C8 counterexample: toggling an existing breakpoint off and on again does
not restore the original registry — the re-added breakpoint has a fresh id
and loses its condition string (and hit count). -/
theorem claim_C8_counterexample :
    (((PlayModeController.initCtrl.initApp.addBreakpoint "n1" "cond").toggleBreakpoint
        "n1").toggleBreakpoint "n1").breakpoints ≠
      (PlayModeController.initCtrl.initApp.addBreakpoint "n1" "cond").breakpoints := by
  decide

/-- C8 amended: under the reachable-registry invariants (unique ids, unique
node targets, fresh id counter ahead of every stored id), toggling a node
twice restores the SET OF NODES that carry breakpoints; when the node had no
breakpoint the registry list itself is restored exactly, but when it had one
the re-added entry differs (fresh id, empty condition, zero hit count), which
is what the counterexample exhibits. -/
theorem claim_C8_amended_toggle_twice :
    ∀ (c : PlayModeController) (n : String),
      idsNodup c.breakpoints →
      nodesNodup c.breakpoints →
      (∀ bp ∈ c.breakpoints, bp.id ≠ c.freshBreakpointId) →
      ((∀ m, (((c.toggleBreakpoint n).toggleBreakpoint n).getBreakpointForNode
            m).isSome = (c.getBreakpointForNode m).isSome) ∧
       (c.getBreakpointForNode n = none →
         ((c.toggleBreakpoint n).toggleBreakpoint n).breakpoints =
           c.breakpoints)) := by
  intro c n hid hnode hfresh
  cases hfn : c.getBreakpointForNode n with
  | none =>
    have hfn' : c.breakpoints.find? (fun b => b.nodeId == n) = none := hfn
    have t1 : c.toggleBreakpoint n = c.addBreakpoint n "" := by
      unfold PlayModeController.toggleBreakpoint
      rw [hfn]
    have hadd : c.addBreakpoint n "" =
        { c with
          breakpoints := c.breakpoints ++
            [PlayModeController.freshBp c n]
          nextBreakpointId := c.nextBreakpointId + 1 } := by
      unfold PlayModeController.addBreakpoint
      rw [if_neg (by rw [hfn]; simp)]
      rfl
    have hfn2 : (c.addBreakpoint n "").getBreakpointForNode n =
        some (PlayModeController.freshBp c n) := by
      rw [hadd]
      unfold PlayModeController.getBreakpointForNode
      dsimp only
      rw [List.find?_append, hfn']
      simp [PlayModeController.freshBp]
    have t2 : (c.addBreakpoint n "").toggleBreakpoint n =
        (c.addBreakpoint n "").removeBreakpoint
          (PlayModeController.freshBp c n : Breakpoint).id := by
      unfold PlayModeController.toggleBreakpoint
      rw [hfn2]
    have hbk : ((c.toggleBreakpoint n).toggleBreakpoint n).breakpoints =
        c.breakpoints := by
      rw [t1, t2]
      unfold PlayModeController.removeBreakpoint
      rw [hadd]
      dsimp only
      rw [List.eraseP_append_right _ (by
        intro b hb
        simp only [beq_iff_eq, PlayModeController.freshBp]
        exact hfresh b hb)]
      simp [PlayModeController.freshBp]
    refine ⟨?_, fun _ => hbk⟩
    intro m
    unfold PlayModeController.getBreakpointForNode
    rw [hbk]
  | some bp0 =>
    have hfn' : c.breakpoints.find? (fun b => b.nodeId == n) = some bp0 := hfn
    have hmem : bp0 ∈ c.breakpoints := List.mem_of_find?_eq_some hfn'
    have hpred := @List.find?_some Breakpoint (fun b => b.nodeId == n)
      bp0 c.breakpoints hfn'
    have hbp0n : bp0.nodeId = n := by simpa using hpred
    have t1 : c.toggleBreakpoint n = c.removeBreakpoint bp0.id := by
      unfold PlayModeController.toggleBreakpoint
      rw [hfn]
    obtain ⟨a, l₁, l₂, hl₁, hpa, hsplit, herase⟩ :=
      @List.exists_of_eraseP Breakpoint (fun b => b.id == bp0.id)
        c.breakpoints bp0 hmem (beq_self_eq_true bp0.id)
    have ha : a = bp0 := by
      refine List.inj_on_of_nodup_map hid ?_ hmem (beq_iff_eq.mp hpa)
      rw [hsplit]
      exact List.mem_append.mpr (Or.inr (List.mem_cons_self a l₂))
    subst ha
    have hrm : (c.removeBreakpoint a.id).breakpoints = l₁ ++ l₂ := by
      unfold PlayModeController.removeBreakpoint
      exact herase
    have hnodeL : ∀ x ∈ l₁ ++ l₂, x.nodeId ≠ n := by
      have hmap : (List.map Breakpoint.nodeId l₁ ++
          a.nodeId :: List.map Breakpoint.nodeId l₂).Nodup := by
        have := hnode
        unfold nodesNodup at this
        rw [hsplit] at this
        simpa using this
      rw [List.nodup_append] at hmap
      intro x hx hxn
      rcases List.mem_append.mp hx with hx1 | hx2
      · exact hmap.2.2 (List.mem_map.mpr ⟨x, hx1, rfl⟩)
          (by rw [hxn, ← hbp0n]; exact List.mem_cons_self _ _)
      · rw [List.nodup_cons] at hmap
        exact hmap.2.1.1 (List.mem_map.mpr ⟨x, hx2, by rw [hxn, ← hbp0n]⟩)
    have hfn2 : (c.removeBreakpoint a.id).getBreakpointForNode n = none := by
      unfold PlayModeController.getBreakpointForNode
      rw [hrm, List.find?_eq_none]
      intro x hx
      simp only [beq_iff_eq]
      exact hnodeL x hx
    have t2 : (c.removeBreakpoint a.id).toggleBreakpoint n =
        (c.removeBreakpoint a.id).addBreakpoint n "" := by
      unfold PlayModeController.toggleBreakpoint
      rw [hfn2]
    have hbk : ((c.toggleBreakpoint n).toggleBreakpoint n).breakpoints =
        (l₁ ++ l₂) ++
          [PlayModeController.freshBp c n] := by
      rw [t1, t2]
      unfold PlayModeController.addBreakpoint
      rw [if_neg (by rw [hfn2]; simp)]
      dsimp only
      rw [hrm]
      rfl
    refine ⟨?_, ?_⟩
    · intro m
      unfold PlayModeController.getBreakpointForNode
      rw [hbk]
      rw [Bool.eq_iff_iff]
      rw [List.find?_isSome, List.find?_isSome]
      constructor
      · rintro ⟨x, hx, hpx⟩
        rcases List.mem_append.mp hx with hx' | hx'
        · refine ⟨x, ?_, hpx⟩
          rcases List.mem_append.mp hx' with h1 | h2
          · rw [hsplit]
            exact List.mem_append.mpr (Or.inl h1)
          · rw [hsplit]
            exact List.mem_append.mpr (Or.inr (List.mem_cons_of_mem _ h2))
        · refine ⟨a, ?_, ?_⟩
          · rw [hsplit]
            exact List.mem_append.mpr (Or.inr (List.mem_cons_self a l₂))
          · have hx1 : x = PlayModeController.freshBp c n := by simpa using hx'
            subst hx1
            simp only [beq_iff_eq, PlayModeController.freshBp] at hpx ⊢
            rw [hbp0n]
            exact hpx
      · rintro ⟨x, hx, hpx⟩
        rw [hsplit] at hx
        rcases List.mem_append.mp hx with hx1 | hx2
        · exact ⟨x, List.mem_append.mpr (Or.inl (List.mem_append.mpr
            (Or.inl hx1))), hpx⟩
        · rcases List.mem_cons.mp hx2 with hxa | hx2'
          · subst hxa
            refine ⟨PlayModeController.freshBp c n, by simp, ?_⟩
            simp only [beq_iff_eq, PlayModeController.freshBp] at hpx ⊢
            rw [← hbp0n]
            exact hpx
          · exact ⟨x, List.mem_append.mpr (Or.inl (List.mem_append.mpr
              (Or.inr hx2'))), hpx⟩
    · intro hcontra
      cases hcontra

/-- C8 amended witness at the concrete registry of the counterexample. -/
theorem claim_C8_amended_witness :
    ((((PlayModeController.initCtrl.initApp.addBreakpoint "n1" "cond").toggleBreakpoint
          "n1").toggleBreakpoint "n1").getBreakpointForNode "n1").isSome =
      ((PlayModeController.initCtrl.initApp.addBreakpoint "n1"
          "cond").getBreakpointForNode "n1").isSome :=
  (claim_C8_amended_toggle_twice
    (PlayModeController.initCtrl.initApp.addBreakpoint "n1" "cond") "n1"
    (by unfold idsNodup; decide) (by unfold nodesNodup; decide)
    (by decide)).1 "n1"
